import Mathlib

/-!
Verification of the chia-skills CLVM static-feature extractor and
puzzle-layer recognition engine (crates/chia-inspect-core).

The first half embeds `inspect.rs` (the tree walker `visit_clvm` and the
integer view `atom_to_u64`); the second half embeds `recognize.rs` (the
layer-peeling loop `recognize_puzzle_and_solution`, its per-template
`try_*` adapters and `collect_matches`).  External crates
(`chia_sdk_driver` layer parsers, `clvmr` decoding, tree hashing) are
abstracted as function parameters returning exactly the data the engine
consumes, mirroring the call sites in the source.
-/

/-- A byte of an atom (Rust `u8`). -/
abbrev Byte := Fin 256

/-- Program tree node (`clvmr` S-expression): `Atom(byte-string)` or
`Pair(left, right)`. -/
inductive Node where
  | atom (bytes : List Byte) : Node
  | pair (left right : Node) : Node
deriving DecidableEq

/-- Hex digit character: 0-9 then a-f (Rust `hex::encode` is lowercase). -/
def hexChar (n : Nat) : Char :=
  if n < 10 then Char.ofNat (48 + n) else Char.ofNat (87 + n)

/-- Two lowercase hex characters for one byte. -/
def byteToHex (b : Byte) : String :=
  String.mk [hexChar (b.val / 16), hexChar (b.val % 16)]

/-- `util.rs` `encode_hex_prefixed`: lowercase hex with a fixed `0x` prefix. -/
def encode_hex_prefixed (bytes : List Byte) : String :=
  "0x" ++ String.join (bytes.map byteToHex)

/-- `inspect.rs` `atom_to_u64`: empty atom is 0; a set high bit of the first
byte or a length over 8 bytes yields `none`; otherwise the bytes are folded
big-endian exactly as the source loop `v = (v << 8) | b` does (the length
check keeps the value below 2^64, so plain `Nat` arithmetic agrees with the
Rust `u64`). -/
def atom_to_u64 (atom : List Byte) : Option Nat :=
  match atom with
  | [] => some 0
  | b0 :: _ =>
    if b0.val &&& 0x80 ≠ 0 then none
    else if atom.length > 8 then none
    else some (atom.foldl (fun v b => (v <<< 8) ||| b.val) 0)

/-- The accumulator threaded through `visit_clvm`: the five `BTreeSet`s of
`extract_static_features`. -/
structure FeatureState where
  operators : Finset String
  env_paths : Finset Nat
  bytes32 : Finset String
  g1_pubkeys : Finset String
  small_ints : Finset Nat
deriving DecidableEq

/-- The empty accumulator built at the top of `extract_static_features`. -/
def emptyFeatures : FeatureState :=
  { operators := ∅, env_paths := ∅, bytes32 := ∅, g1_pubkeys := ∅, small_ints := ∅ }

/-- A keyword table (`keyword_from_atom(OPERATORS_LATEST_VERSION)` from the
external `chialisp` crate), abstracted to its lookup function. -/
abbrev KeywordMap := List Byte → Option String

/-- `inspect.rs` `visit_clvm`: depth-first walk with the `in_quoted` and
`operator_position` booleans.  At a pair, when not quoted and the left child
is an atom matching a known operator encoding, the canonical name is added to
`operators`, then the left child is visited in operator position and the
right child is visited out of operator position, quoted when the left child
is the literal quote atom `[1]`.  At an atom, 32- and 48-byte constants are
bucketed unconditionally, a parseable integer at most 1,000,000 is added to
`small_ints`, and a parseable integer in `[1, u32::MAX]` is added to
`env_paths` when neither quoted nor in operator position. -/
def visit_clvm (keywords : KeywordMap) : Node → Bool → Bool → FeatureState → FeatureState
  | .pair left right, in_quoted, _, st =>
    let is_quote := !in_quoted &&
      (match left with
       | .atom a => a = [(1 : Byte)]
       | .pair _ _ => false)
    let st1 :=
      if !in_quoted then
        match left with
        | .atom a =>
          match keywords a with
          | some name => { st with operators := insert name st.operators }
          | none => st
        | .pair _ _ => st
      else st
    let st2 := visit_clvm keywords left in_quoted true st1
    visit_clvm keywords right (in_quoted || is_quote) false st2
  | .atom bytes, in_quoted, operator_position, st =>
    let st1 :=
      if bytes.length = 32 then
        { st with bytes32 := insert (encode_hex_prefixed bytes) st.bytes32 }
      else if bytes.length = 48 then
        { st with g1_pubkeys := insert (encode_hex_prefixed bytes) st.g1_pubkeys }
      else st
    match atom_to_u64 bytes with
    | some value =>
      let st2 :=
        if value ≤ 1000000 then
          { st1 with small_ints := insert value st1.small_ints }
        else st1
      if !in_quoted && !operator_position && decide (value > 0) &&
          decide (value ≤ 4294967295) then
        { st2 with env_paths := insert value st2.env_paths }
      else st2
    | none => st1

/-- `inspect.rs` `extract_static_features`: run the walk from the root with
both flags false over empty buckets. -/
def extract_static_features (keywords : KeywordMap) (root : Node) : FeatureState :=
  visit_clvm keywords root false false emptyFeatures

/-- Specification-side reading of an atom as a big-endian unsigned integer
(positional byte weights), written independently of the source fold. -/
def spec_big_endian_value : List Byte → Nat
  | [] => 0
  | b :: rest => b.val * 256 ^ rest.length + spec_big_endian_value rest

/-- Boolean occurrence of an atom with exactly the given bytes in a tree. -/
def containsAtom (b : List Byte) : Node → Bool
  | .atom a => a = b
  | .pair l r => containsAtom b l || containsAtom b r

/-! ### Arithmetic bridge for the big-endian fold -/

/-- Shifting left by one octet and or-ing in a byte is positional
arithmetic. -/
theorem shiftLeft_or_byte (v b : Nat) (hb : b < 256) :
    (v <<< 8) ||| b = v * 256 + b := by
  rw [Nat.shiftLeft_eq]
  apply Nat.eq_of_testBit_eq
  intro j
  have h256 : (256 : Nat) = 2 ^ 8 := by norm_num
  rw [h256] at hb ⊢
  have hrhs : (v * 2 ^ 8 + b).testBit j =
      if j < 8 then b.testBit j else v.testBit (j - 8) := by
    rw [Nat.mul_comm]
    exact Nat.testBit_mul_pow_two_add v hb j
  rw [hrhs, Nat.testBit_or]
  have hmul : (v * 2 ^ 8).testBit j = (decide (j ≥ 8) && v.testBit (j - 8)) := by
    rw [Nat.mul_comm]
    exact Nat.testBit_mul_pow_two
  rw [hmul]
  rcases Nat.lt_or_ge j 8 with hj | hj
  · simp [hj, Nat.not_le.mpr hj]
  · have hbj : b.testBit j = false := by
      apply Nat.testBit_eq_false_of_lt
      exact lt_of_lt_of_le hb (Nat.pow_le_pow_right (by norm_num) hj)
    simp [hbj, hj, Nat.not_lt.mpr hj]

/-- The source fold agrees with the positional big-endian reading from any
accumulator. -/
theorem foldl_shift_or_eq (l : List Byte) (a : Nat) :
    l.foldl (fun v b => (v <<< 8) ||| b.val) a =
      a * 256 ^ l.length + spec_big_endian_value l := by
  induction l generalizing a with
  | nil => simp [spec_big_endian_value]
  | cons b rest ih =>
    simp only [List.foldl_cons, spec_big_endian_value, List.length_cons]
    rw [ih, shiftLeft_or_byte a b.val b.isLt]
    ring

set_option maxRecDepth 4096 in
/-- For a byte, testing the top bit with a mask is the same as comparing
with 128. -/
theorem byte_high_bit (b0 : Byte) : (b0.val &&& 128 ≠ 0) ↔ 128 ≤ b0.val := by
  revert b0
  decide

/-- C7: for every byte-string atom the integer view yields 0 for the empty
atom, the big-endian unsigned value when the first byte's high bit is clear
and the length is at most 8, and no integer otherwise. -/
theorem atom_to_u64_characterization : ∀ (b : List Byte),
    atom_to_u64 b =
      match b with
      | [] => some 0
      | b0 :: rest =>
        if 128 ≤ b0.val ∨ 8 < (b0 :: rest).length then none
        else some (spec_big_endian_value (b0 :: rest)) := by
  intro b
  match b with
  | [] => rfl
  | b0 :: rest =>
    simp only [atom_to_u64]
    by_cases h1 : 128 ≤ b0.val
    · rw [if_pos ((byte_high_bit b0).mpr h1), if_pos (Or.inl h1)]
    · rw [if_neg (fun hc => h1 ((byte_high_bit b0).mp hc))]
      by_cases h2 : (b0 :: rest).length > 8
      · rw [if_pos h2, if_pos (Or.inr h2)]
      · rw [if_neg h2, if_neg (by push_neg; omega)]
        rw [foldl_shift_or_eq]
        simp

/-! ### Field-level lemmas about `visit_clvm` -/

/-- Visiting an atom never changes the operator set: operator names are only
inserted at a pair, for its left child. -/
theorem visit_atom_operators (kw : KeywordMap) (bytes : List Byte) (q op : Bool)
    (st : FeatureState) :
    (visit_clvm kw (.atom bytes) q op st).operators = st.operators := by
  simp only [visit_clvm]
  cases h : atom_to_u64 bytes
  · split_ifs <;> rfl
  · simp only []
    split_ifs <;> rfl

/-- Visiting an atom of 32 bytes records its hex form in the 32-byte bucket
and changes that bucket in no other way. -/
theorem visit_atom_bytes32_of_len32 (kw : KeywordMap) (bytes : List Byte)
    (q op : Bool) (st : FeatureState) (h32 : bytes.length = 32) :
    (visit_clvm kw (.atom bytes) q op st).bytes32 =
      insert (encode_hex_prefixed bytes) st.bytes32 := by
  simp only [visit_clvm, h32]
  cases h : atom_to_u64 bytes
  · split_ifs <;> rfl
  · simp only []
    split_ifs <;> rfl

/-- Visiting an atom leaves the 32-byte bucket untouched unless the atom has
exactly 32 bytes. -/
theorem visit_atom_bytes32_of_ne32 (kw : KeywordMap) (bytes : List Byte)
    (q op : Bool) (st : FeatureState) (h32 : bytes.length ≠ 32) :
    (visit_clvm kw (.atom bytes) q op st).bytes32 = st.bytes32 := by
  simp only [visit_clvm, if_neg h32]
  cases h : atom_to_u64 bytes
  · split_ifs <;> rfl
  · simp only []
    split_ifs <;> rfl

/-- The effect of an atom visit on `env_paths`, with the source's boolean
guard verbatim: the value is inserted exactly when unquoted, out of operator
position, positive, and at most `u32::MAX`. -/
theorem visit_atom_env_paths (kw : KeywordMap) (bytes : List Byte) (q op : Bool)
    (st : FeatureState) (value : Nat) (h : atom_to_u64 bytes = some value) :
    (visit_clvm kw (.atom bytes) q op st).env_paths =
      if (!q && !op && decide (value > 0) && decide (value ≤ 4294967295)) = true
      then insert value st.env_paths else st.env_paths := by
  simp only [visit_clvm, h]
  split_ifs <;> rfl

/-- The boolean `env_paths` guard, read as a proposition. -/
theorem env_guard_iff (q op : Bool) (value : Nat) :
    ((!q && !op && decide (value > 0) && decide (value ≤ 4294967295)) = true) ↔
      (q = false ∧ op = false ∧ 1 ≤ value ∧ value ≤ 4294967295) := by
  simp only [Bool.and_eq_true, Bool.not_eq_true', decide_eq_true_eq, gt_iff_lt,
    Nat.lt_iff_add_one_le, zero_add, and_assoc]

/-- The walk only ever grows the operator set. -/
theorem visit_operators_mono (kw : KeywordMap) :
    ∀ (n : Node) (q op : Bool) (st : FeatureState),
      st.operators ⊆ (visit_clvm kw n q op st).operators := by
  intro n
  induction n with
  | atom bytes =>
    intro q op st
    rw [visit_atom_operators]
  | pair l r ihl ihr =>
    intro q op st
    simp only [visit_clvm]
    refine Finset.Subset.trans (Finset.Subset.trans ?_ (ihl q true _)) (ihr _ false _)
    split_ifs
    · cases l with
      | atom a =>
        cases hkw : kw a
        · simp [hkw]
        · simp only [hkw]
          exact Finset.subset_insert _ _
      | pair _ _ => simp
    · simp

/-- The walk only ever grows the 32-byte constant bucket. -/
theorem visit_bytes32_mono (kw : KeywordMap) :
    ∀ (n : Node) (q op : Bool) (st : FeatureState),
      st.bytes32 ⊆ (visit_clvm kw n q op st).bytes32 := by
  intro n
  induction n with
  | atom bytes =>
    intro q op st
    by_cases h32 : bytes.length = 32
    · rw [visit_atom_bytes32_of_len32 _ _ _ _ _ h32]
      exact Finset.subset_insert _ _
    · rw [visit_atom_bytes32_of_ne32 _ _ _ _ _ h32]
  | pair l r ihl ihr =>
    intro q op st
    simp only [visit_clvm]
    refine Finset.Subset.trans (Finset.Subset.trans ?_ (ihl q true _)) (ihr _ false _)
    split_ifs
    · cases l with
      | atom a =>
        cases hkw : kw a
        · simp [hkw]
        · simp only [hkw]
          exact Finset.Subset.refl _
      | pair _ _ => simp
    · simp

/-- Inside quoted data no operator name is ever recorded, however deep the
subtree: the pair-level keyword insertion is guarded by `!in_quoted` and the
flag propagates to both children. -/
theorem visit_quoted_operators (kw : KeywordMap) :
    ∀ (n : Node) (op : Bool) (st : FeatureState),
      (visit_clvm kw n true op st).operators = st.operators := by
  intro n
  induction n with
  | atom bytes =>
    intro op st
    rw [visit_atom_operators]
  | pair l r ihl ihr =>
    intro op st
    simp only [visit_clvm, Bool.not_true, Bool.false_and, Bool.true_or,
      Bool.false_eq_true, if_false]
    rw [ihr, ihl]

/-- Any 32-byte atom occurring anywhere in a visited subtree lands in the
32-byte constant bucket, whatever the flags. -/
theorem visit_contains_bytes32 (kw : KeywordMap) :
    ∀ (t : Node) (q op : Bool) (st : FeatureState) (b : List Byte),
      b.length = 32 → containsAtom b t = true →
      encode_hex_prefixed b ∈ (visit_clvm kw t q op st).bytes32 := by
  intro t
  induction t with
  | atom a =>
    intro q op st b h32 hc
    simp only [containsAtom, decide_eq_true_eq] at hc
    subst hc
    rw [visit_atom_bytes32_of_len32 _ _ _ _ _ h32]
    exact Finset.mem_insert_self _ _
  | pair l r ihl ihr =>
    intro q op st b h32 hc
    simp only [containsAtom, Bool.or_eq_true] at hc
    simp only [visit_clvm]
    rcases hc with hc | hc
    · exact visit_bytes32_mono kw r _ false _ (ihl q true _ b h32 hc)
    · exact ihr _ false _ b h32 hc

/-! ### Claim theorems for the static feature extractor -/

/-- A sample keyword table used to evaluate the claims on concrete input:
the quote operator `[1] -> q` and the addition operator `[16] -> add`. -/
def kwSample : KeywordMap := fun a =>
  if a = [(1 : Byte)] then some "q"
  else if a = [(16 : Byte)] then some "add"
  else none

/-- An empty keyword table. -/
def kwNone : KeywordMap := fun _ => none

/-- C2: in an unquoted tree `(A B)` whose left child `A` is an atom matching
a known operator encoding, the canonical name of `A` is recorded in
`operators_used`; and visiting an atom (in particular in argument position)
never adds to `operators_used`. -/
theorem operator_position_correctness (kw : KeywordMap) (a : List Byte) (t : Node)
    (pos : Bool) (st : FeatureState) (nm : String) (q2 op2 : Bool)
    (st2 : FeatureState) (hkw : kw a = some nm) :
    nm ∈ (visit_clvm kw (.pair (.atom a) t) false pos st).operators ∧
    (visit_clvm kw (.atom a) q2 op2 st2).operators = st2.operators := by
  constructor
  · simp only [visit_clvm, Bool.not_false, if_true, hkw]
    have h1 : nm ∈ (insert nm st.operators : Finset String) :=
      Finset.mem_insert_self _ _
    exact visit_operators_mono kw t _ false _
      (visit_operators_mono kw (.atom a) false true _ h1)
  · exact visit_atom_operators kw a q2 op2 st2

/-- C2 witness: `[16]` is the sample encoding of `add`; in `([16] . [16])`
the operator position contributes `add` while the atom visit itself leaves
the operator set unchanged. -/
theorem operator_position_correctness_witness :
    kwSample [(16 : Byte)] = some "add" ∧
    ("add" ∈ (visit_clvm kwSample
        (.pair (.atom [(16 : Byte)]) (.atom [(16 : Byte)])) false false
        emptyFeatures).operators ∧
      (visit_clvm kwSample (.atom [(16 : Byte)]) false false
        emptyFeatures).operators = emptyFeatures.operators) :=
  ⟨by decide,
   operator_position_correctness kwSample [(16 : Byte)] (.atom [(16 : Byte)])
     false emptyFeatures "add" false false emptyFeatures (by decide)⟩

/-- One-step unfolding of the walk at a pair whose left child is an atom. -/
theorem visit_pair_atom_unfold (kw : KeywordMap) (a : List Byte) (r : Node)
    (q op : Bool) (st : FeatureState) :
    visit_clvm kw (.pair (.atom a) r) q op st =
      visit_clvm kw r (q || (!q && decide (a = [(1 : Byte)]))) false
        (visit_clvm kw (.atom a) q true
          (if (!q) = true then
             (match kw a with
              | some nm => { st with operators := insert nm st.operators }
              | none => st)
           else st)) := rfl

/-- C6: wrapping any subtree `t` in a quote form `([1] . t)` puts every
32-byte atom of `t` into the 32-byte constant bucket while the operator set
gains nothing from `t` — only, possibly, the name of the quote atom itself —
even if bytes inside `t` coincide with operator encodings. -/
theorem quoting_correctness (kw : KeywordMap) (t : Node) (pos : Bool)
    (st : FeatureState) (b : List Byte) (h32 : b.length = 32)
    (hc : containsAtom b t = true) :
    encode_hex_prefixed b ∈
      (visit_clvm kw (.pair (.atom [(1 : Byte)]) t) false pos st).bytes32 ∧
    (visit_clvm kw (.pair (.atom [(1 : Byte)]) t) false pos st).operators =
      (match kw [(1 : Byte)] with
       | some nm => insert nm st.operators
       | none => st.operators) := by
  have hd : (decide (([(1 : Byte)] : List Byte) = [(1 : Byte)])) = true := by decide
  constructor
  · rw [visit_pair_atom_unfold]
    exact visit_contains_bytes32 kw t _ false _ b h32 hc
  · rw [visit_pair_atom_unfold, hd]
    simp only [Bool.not_false, Bool.true_and, Bool.false_or]
    simp only [if_true]
    rw [visit_quoted_operators, visit_atom_operators]
    cases hkw : kw [(1 : Byte)] <;> simp [hkw]

/-- C6 witness: a quoted 32-byte atom (32 × `0xab`) lands in the 32-byte
bucket while the operator set only picks up the quote operator itself. -/
theorem quoting_correctness_witness :
    ((List.replicate 32 (0xab : Byte)).length = 32 ∧
      containsAtom (List.replicate 32 (0xab : Byte))
        (.atom (List.replicate 32 (0xab : Byte))) = true) ∧
    (encode_hex_prefixed (List.replicate 32 (0xab : Byte)) ∈
      (visit_clvm kwSample
        (.pair (.atom [(1 : Byte)]) (.atom (List.replicate 32 (0xab : Byte))))
        false false emptyFeatures).bytes32 ∧
    (visit_clvm kwSample
        (.pair (.atom [(1 : Byte)]) (.atom (List.replicate 32 (0xab : Byte))))
        false false emptyFeatures).operators =
      (match kwSample [(1 : Byte)] with
       | some nm => insert nm emptyFeatures.operators
       | none => emptyFeatures.operators)) :=
  ⟨⟨by decide, by decide⟩,
   quoting_correctness kwSample (.atom (List.replicate 32 (0xab : Byte))) false
     emptyFeatures (List.replicate 32 (0xab : Byte)) (by decide) (by decide)⟩

/-- C3 counterexample: the atom `0x1e8480` (2,000,000 — above the small-int
bound of 1,000,000) in argument position of an unquoted pair IS added to
`env_paths_used`: the source only gates `env_paths` on positivity and the
`u32` bound, not on the 1,000,000 small-integer condition. -/
theorem env_paths_gate_counterexample :
    2000000 ∈ (extract_static_features kwNone
      (.pair (.atom [])
        (.atom [(0x1e : Byte), (0x84 : Byte), (0x80 : Byte)]))).env_paths ∧
    1000000 < 2000000 := by
  constructor
  · decide
  · decide

/-- C3 amended: an atom parsing to `value` is added to `env_paths` exactly
when it is unquoted, out of operator position, and `value` lies in
`[1, 2^32 - 1]` — with no upper gate at 1,000,000. -/
theorem env_paths_condition (kw : KeywordMap) (bytes : List Byte) (q op : Bool)
    (st : FeatureState) (value : Nat) (h : atom_to_u64 bytes = some value) :
    (visit_clvm kw (.atom bytes) q op st).env_paths =
      if q = false ∧ op = false ∧ 1 ≤ value ∧ value ≤ 4294967295 then
        insert value st.env_paths
      else st.env_paths := by
  rw [visit_atom_env_paths kw bytes q op st value h]
  by_cases hcond : q = false ∧ op = false ∧ 1 ≤ value ∧ value ≤ 4294967295
  · rw [if_pos ((env_guard_iff q op value).mpr hcond), if_pos hcond]
  · rw [if_neg (fun hb => hcond ((env_guard_iff q op value).mp hb)),
      if_neg hcond]

/-- C3 amended witness: the 2,000,000 atom, unquoted and in argument
position, is inserted into `env_paths`. -/
theorem env_paths_condition_witness :
    atom_to_u64 [(0x1e : Byte), (0x84 : Byte), (0x80 : Byte)] = some 2000000 ∧
    (visit_clvm kwNone (.atom [(0x1e : Byte), (0x84 : Byte), (0x80 : Byte)])
        false false emptyFeatures).env_paths =
      (if false = false ∧ false = false ∧ 1 ≤ 2000000 ∧ 2000000 ≤ 4294967295
       then insert 2000000 emptyFeatures.env_paths
       else emptyFeatures.env_paths) :=
  ⟨by decide,
   env_paths_condition kwNone [(0x1e : Byte), (0x84 : Byte), (0x80 : Byte)]
     false false emptyFeatures 2000000 (by decide)⟩

/-!
### Recognition engine (`recognize.rs`)

`DriverPuzzle` (external `chia_sdk_driver::Puzzle`) is abstracted to a type
parameter `P` with its structural hash `curried_puzzle_hash` abstracted to a
function `hash : P → Nat`; `clvmr::NodePtr` solution nodes are a type
parameter `N`.  Each external layer parser is a function argument returning
exactly the data the `try_*` adapter consumes: the inner puzzle for wrapping
layers, `Unit` for leaf layers whose parameters only feed the (omitted)
`params` JSON blob.  Confidences (`f64` literals 1.0 / 0.8 / 0.5, only ever
assigned and compared) are represented exactly as rationals.
-/

/-- The `status` discriminant of a layer's solution JSON in `recognize.rs`. -/
inductive SolutionStatus where
  | ok
  | okRecover
  | error (message : String)
  | missing_solution
  | unsupported
deriving DecidableEq

/-- `recognize.rs` struct `LayerMatch`, restricted to the fields the engine
inspects (the `params` JSON blob is carried by the source but never read by
the loop). -/
structure LayerMatch (P N : Type) where
  name : String
  source_path : String
  next_puzzle : Option P
  next_solution : Option N
  solution : SolutionStatus
  parse_error : Option String
deriving DecidableEq

/-- `schema.rs` struct `WrapperInfo`, restricted to the fields derived from
the match (constant source provenance fields and the JSON params omitted;
hashes are the abstract `Nat` structural hash). -/
structure WrapperInfo where
  name : String
  inner_puzzle_tree_hash : Option Nat
  parse_error : Option String
deriving DecidableEq

/-- `schema.rs` struct `PuzzleCandidate` (provenance constants omitted). -/
structure PuzzleCandidate where
  name : String
  confidence : ℚ
deriving DecidableEq

/-- One entry of the `solution_layers` JSON array built by the loop. -/
inductive SolutionLayer where
  | ambiguous (options : List String)
  | layer (name : String) (result : SolutionStatus)
  | stopped_cycle
deriving DecidableEq

/-- The `parsed_solution` JSON object. -/
structure ParsedSolution (N : Type) where
  layers : List SolutionLayer
  remaining_solution : Option N
  decode_error : Option String
deriving DecidableEq

/-- `schema.rs` struct `PuzzleRecognition`. -/
structure PuzzleRecognition (N : Type) where
  recognized : Bool
  candidates : List PuzzleCandidate
  wrappers : List WrapperInfo
  parsed_solution : Option (ParsedSolution N)
deriving DecidableEq

/-- The three confidence levels of `recognize.rs`. -/
def matched_clean_confidence : ℚ := 1
/-- Confidence when the solution parse produced an error. -/
def matched_error_confidence : ℚ := 8 / 10
/-- Confidence of each candidate in an ambiguous iteration. -/
def ambiguous_confidence : ℚ := 1 / 2

/-- `recognize.rs` `candidate_from_match`. -/
def candidate_from_match {P N : Type} (matched : LayerMatch P N)
    (confidence : ℚ) : PuzzleCandidate :=
  { name := matched.name, confidence := confidence }

/-- `recognize.rs` constant `MAX_LAYER_DEPTH`. -/
def MAX_LAYER_DEPTH : Nat := 32

/-- The mutable loop state of `recognize_puzzle_and_solution`. -/
structure EngineState where
  wrappers : List WrapperInfo
  candidates : List PuzzleCandidate
  solution_layers : List SolutionLayer
deriving DecidableEq

/-- The empty loop state built before the loop. -/
def emptyEngine : EngineState :=
  { wrappers := [], candidates := [], solution_layers := [] }

/-- The single-match body of the loop (lines 88–113 of `recognize.rs`):
append the Wrapper Record, the candidate at confidence 1.0 or 0.8, and the
solution-layer trace entry. -/
def accept_match {P N : Type} (hash : P → Nat) (st : EngineState)
    (matched : LayerMatch P N) : EngineState :=
  { st with
    wrappers := st.wrappers ++
      [{ name := matched.name,
         inner_puzzle_tree_hash := matched.next_puzzle.map hash,
         parse_error := matched.parse_error }],
    candidates := st.candidates ++
      [candidate_from_match matched
        (if matched.parse_error.isSome then matched_error_confidence
         else matched_clean_confidence)],
    solution_layers := st.solution_layers ++
      [SolutionLayer.layer matched.name matched.solution] }

/-- The `for _ in 0..MAX_LAYER_DEPTH` loop of
`recognize_puzzle_and_solution`, with the remaining iteration budget as the
explicit first argument.  Returns the final state, the final
`current_solution`, and (as a ghost observation) the number of loop
iterations that executed. -/
def recognizeLoop {P N : Type} (hash : P → Nat)
    (catalog : P → Option N → List (LayerMatch P N)) :
    Nat → P → Option N → EngineState → EngineState × Option N × Nat
  | 0, _, solution, st => (st, solution, 0)
  | fuel + 1, puzzle, solution, st =>
    match catalog puzzle solution with
    | [] => (st, solution, 1)
    | [matched] =>
      let current_hash := hash puzzle
      let st1 := accept_match hash st matched
      let solution1 := matched.next_solution
      match matched.next_puzzle with
      | none => (st1, solution1, 1)
      | some next_puzzle =>
        if hash next_puzzle = current_hash then
          ({ st1 with solution_layers :=
              st1.solution_layers ++ [SolutionLayer.stopped_cycle] },
           solution1, 1)
        else
          let r := recognizeLoop hash catalog fuel next_puzzle solution1 st1
          (r.1, r.2.1, r.2.2 + 1)
    | m1 :: m2 :: rest =>
      ({ st with
          candidates := st.candidates ++
            (m1 :: m2 :: rest).map
              (fun m => candidate_from_match m ambiguous_confidence),
          solution_layers := st.solution_layers ++
            [SolutionLayer.ambiguous ((m1 :: m2 :: rest).map
              (fun m => m.name))] },
       solution, 1)

/-- The DID solution as parsed by the external crate: `Spend(inner)` or
`Recover(..)`. -/
inductive DidParsedSolution (N : Type) where
  | spend (inner_solution : N)
  | recover
deriving DecidableEq

/-- Shared solution handling of the wrapping-layer `try_*` functions
(`cat`, `singleton`, `nft_state`, `nft_ownership`, `augmented_condition`,
`bulletin`, `option_contract`): on `Ok` the parsed inner solution becomes the
next solution; on `Err` the error is recorded; absence yields the
missing-solution outcome.  Returns `(parse_error, next_solution, status)`. -/
def wrap_solution_outcome {N : Type} (msgHead : String)
    (parse_solution : N → Except String N) (solution : Option N) :
    Option String × Option N × SolutionStatus :=
  match solution with
  | some ptr =>
    match parse_solution ptr with
    | .ok inner_solution => (none, some inner_solution, .ok)
    | .error err => (some (msgHead ++ err), none, .error err)
  | none => (none, none, .missing_solution)

/-- Shared solution handling of the leaf-layer `try_*` functions
(`revocation`, `p2_singleton`, `p2_curried`, `p2_one_of_many`,
`p2_delegated_conditions`, `settlement`, `stream`, `standard`): the parses
never produce a next solution. -/
def leaf_solution_outcome {N : Type} (msgHead : String)
    (parse_solution : N → Except String Unit) (solution : Option N) :
    Option String × Option N × SolutionStatus :=
  match solution with
  | some ptr =>
    match parse_solution ptr with
    | .ok _ => (none, none, .ok)
    | .error err => (some (msgHead ++ err), none, .error err)
  | none => (none, none, .missing_solution)

/-- Build the match record of a wrapping layer from a successful puzzle
parse and the solution outcome. -/
def wrap_layer_match {P N : Type} (name source_path msgHead : String)
    (parse_solution : N → Except String N) (inner_puzzle : P)
    (solution : Option N) : LayerMatch P N :=
  let out := wrap_solution_outcome msgHead parse_solution solution
  { name := name, source_path := source_path,
    next_puzzle := some inner_puzzle, next_solution := out.2.1,
    solution := out.2.2, parse_error := out.1 }

/-- Build the match record of a leaf layer from a successful puzzle parse
and the solution outcome. -/
def leaf_layer_match {P N : Type} (name source_path msgHead : String)
    (parse_solution : N → Except String Unit) (solution : Option N) :
    LayerMatch P N :=
  let out := leaf_solution_outcome msgHead parse_solution solution
  { name := name, source_path := source_path,
    next_puzzle := none, next_solution := out.2.1,
    solution := out.2.2, parse_error := out.1 }

/-- `recognize.rs` `try_cat_layer`, over the abstract external parsers. -/
def try_cat_layer {P N : Type} (parse_puzzle : P → Option P)
    (parse_solution : N → Except String N) (puzzle : P)
    (solution : Option N) : Option (LayerMatch P N) :=
  (parse_puzzle puzzle).map fun inner_puzzle =>
    wrap_layer_match "cat_layer"
      "crates/chia-sdk-driver/src/layers/cat_layer.rs"
      "failed to parse CAT solution: " parse_solution inner_puzzle solution

/-- `recognize.rs` `try_singleton_layer`. -/
def try_singleton_layer {P N : Type} (parse_puzzle : P → Option P)
    (parse_solution : N → Except String N) (puzzle : P)
    (solution : Option N) : Option (LayerMatch P N) :=
  (parse_puzzle puzzle).map fun inner_puzzle =>
    wrap_layer_match "singleton_layer"
      "crates/chia-sdk-driver/src/layers/singleton_layer.rs"
      "failed to parse singleton solution: " parse_solution inner_puzzle
      solution

/-- Solution handling of `try_did_layer`: the `Spend` variant descends, the
`Recover` variant has no inner solution. -/
def did_solution_outcome {N : Type}
    (parse_solution : N → Except String (DidParsedSolution N))
    (solution : Option N) : Option String × Option N × SolutionStatus :=
  match solution with
  | some ptr =>
    match parse_solution ptr with
    | .ok (.spend inner_solution) => (none, some inner_solution, .ok)
    | .ok .recover => (none, none, .okRecover)
    | .error err =>
      (some ("failed to parse DID solution: " ++ err), none, .error err)
  | none => (none, none, .missing_solution)

/-- Build the DID layer match record from a successful puzzle parse. -/
def did_layer_match {P N : Type}
    (parse_solution : N → Except String (DidParsedSolution N))
    (inner_puzzle : P) (solution : Option N) : LayerMatch P N :=
  let out := did_solution_outcome parse_solution solution
  { name := "did_layer",
    source_path := "crates/chia-sdk-driver/src/layers/did_layer.rs",
    next_puzzle := some inner_puzzle, next_solution := out.2.1,
    solution := out.2.2, parse_error := out.1 }

/-- `recognize.rs` `try_did_layer`: its solution parse distinguishes the
`Spend` (descend) and `Recover` (no inner solution) variants. -/
def try_did_layer {P N : Type} (parse_puzzle : P → Option P)
    (parse_solution : N → Except String (DidParsedSolution N)) (puzzle : P)
    (solution : Option N) : Option (LayerMatch P N) :=
  (parse_puzzle puzzle).map fun inner_puzzle =>
    did_layer_match parse_solution inner_puzzle solution

/-- `recognize.rs` `try_nft_state_layer`. -/
def try_nft_state_layer {P N : Type} (parse_puzzle : P → Option P)
    (parse_solution : N → Except String N) (puzzle : P)
    (solution : Option N) : Option (LayerMatch P N) :=
  (parse_puzzle puzzle).map fun inner_puzzle =>
    wrap_layer_match "nft_state_layer"
      "crates/chia-sdk-driver/src/layers/nft_state_layer.rs"
      "failed to parse NFT state solution: " parse_solution inner_puzzle
      solution

/-- `recognize.rs` `try_nft_ownership_layer`. -/
def try_nft_ownership_layer {P N : Type} (parse_puzzle : P → Option P)
    (parse_solution : N → Except String N) (puzzle : P)
    (solution : Option N) : Option (LayerMatch P N) :=
  (parse_puzzle puzzle).map fun inner_puzzle =>
    wrap_layer_match "nft_ownership_layer"
      "crates/chia-sdk-driver/src/layers/nft_ownership_layer.rs"
      "failed to parse NFT ownership solution: " parse_solution inner_puzzle
      solution

/-- The fixed match record of the royalty transfer layer: no solution
parser exists, so it always reports the `unsupported` outcome, no next
puzzle and no parse error. -/
def royalty_layer_match {P N : Type} : LayerMatch P N :=
  { name := "royalty_transfer_layer",
    source_path := "crates/chia-sdk-driver/src/layers/royalty_transfer_layer.rs",
    next_puzzle := none, next_solution := none,
    solution := .unsupported, parse_error := none }

/-- `recognize.rs` `try_royalty_transfer_layer`: no solution parser exists
for this layer; on a puzzle match it always reports the fixed
`unsupported` outcome, no next puzzle and no parse error. -/
def try_royalty_transfer_layer {P N : Type} (parse_puzzle : P → Option Unit)
    (puzzle : P) : Option (LayerMatch P N) :=
  (parse_puzzle puzzle).map fun _ => royalty_layer_match

/-- `recognize.rs` `try_augmented_condition_layer`. -/
def try_augmented_condition_layer {P N : Type} (parse_puzzle : P → Option P)
    (parse_solution : N → Except String N) (puzzle : P)
    (solution : Option N) : Option (LayerMatch P N) :=
  (parse_puzzle puzzle).map fun inner_puzzle =>
    wrap_layer_match "augmented_condition_layer"
      "crates/chia-sdk-driver/src/layers/augmented_condition_layer.rs"
      "failed to parse augmented condition solution: " parse_solution
      inner_puzzle solution

/-- `recognize.rs` `try_bulletin_layer`. -/
def try_bulletin_layer {P N : Type} (parse_puzzle : P → Option P)
    (parse_solution : N → Except String N) (puzzle : P)
    (solution : Option N) : Option (LayerMatch P N) :=
  (parse_puzzle puzzle).map fun inner_puzzle =>
    wrap_layer_match "bulletin_layer"
      "crates/chia-sdk-driver/src/layers/bulletin_layer.rs"
      "failed to parse bulletin solution: " parse_solution inner_puzzle
      solution

/-- `recognize.rs` `try_option_contract_layer`. -/
def try_option_contract_layer {P N : Type} (parse_puzzle : P → Option P)
    (parse_solution : N → Except String N) (puzzle : P)
    (solution : Option N) : Option (LayerMatch P N) :=
  (parse_puzzle puzzle).map fun inner_puzzle =>
    wrap_layer_match "option_contract_layer"
      "crates/chia-sdk-driver/src/layers/option_contract_layer.rs"
      "failed to parse option contract solution: " parse_solution
      inner_puzzle solution

/-- `recognize.rs` `try_revocation_layer` (a leaf: `next_puzzle` is `None`
even on a successful solution parse). -/
def try_revocation_layer {P N : Type} (parse_puzzle : P → Option Unit)
    (parse_solution : N → Except String Unit) (puzzle : P)
    (solution : Option N) : Option (LayerMatch P N) :=
  (parse_puzzle puzzle).map fun _ =>
    leaf_layer_match "revocation_layer"
      "crates/chia-sdk-driver/src/layers/revocation_layer.rs"
      "failed to parse revocation solution: " parse_solution solution

/-- `recognize.rs` `try_p2_singleton_layer`. -/
def try_p2_singleton_layer {P N : Type} (parse_puzzle : P → Option Unit)
    (parse_solution : N → Except String Unit) (puzzle : P)
    (solution : Option N) : Option (LayerMatch P N) :=
  (parse_puzzle puzzle).map fun _ =>
    leaf_layer_match "p2_singleton_layer"
      "crates/chia-sdk-driver/src/layers/p2_singleton_layer.rs"
      "failed to parse p2_singleton solution: " parse_solution solution

/-- `recognize.rs` `try_p2_curried_layer`. -/
def try_p2_curried_layer {P N : Type} (parse_puzzle : P → Option Unit)
    (parse_solution : N → Except String Unit) (puzzle : P)
    (solution : Option N) : Option (LayerMatch P N) :=
  (parse_puzzle puzzle).map fun _ =>
    leaf_layer_match "p2_curried_layer"
      "crates/chia-sdk-driver/src/layers/p2_curried_layer.rs"
      "failed to parse p2_curried solution: " parse_solution solution

/-- `recognize.rs` `try_p2_one_of_many_layer`. -/
def try_p2_one_of_many_layer {P N : Type} (parse_puzzle : P → Option Unit)
    (parse_solution : N → Except String Unit) (puzzle : P)
    (solution : Option N) : Option (LayerMatch P N) :=
  (parse_puzzle puzzle).map fun _ =>
    leaf_layer_match "p2_one_of_many_layer"
      "crates/chia-sdk-driver/src/layers/p2_one_of_many_layer.rs"
      "failed to parse p2_one_of_many solution: " parse_solution solution

/-- `recognize.rs` `try_p2_delegated_conditions_layer`. -/
def try_p2_delegated_conditions_layer {P N : Type}
    (parse_puzzle : P → Option Unit)
    (parse_solution : N → Except String Unit) (puzzle : P)
    (solution : Option N) : Option (LayerMatch P N) :=
  (parse_puzzle puzzle).map fun _ =>
    leaf_layer_match "p2_delegated_conditions_layer"
      "crates/chia-sdk-driver/src/layers/p2_delegated_conditions_layer.rs"
      "failed to parse p2_delegated_conditions solution: " parse_solution
      solution

/-- `recognize.rs` `try_settlement_layer`. -/
def try_settlement_layer {P N : Type} (parse_puzzle : P → Option Unit)
    (parse_solution : N → Except String Unit) (puzzle : P)
    (solution : Option N) : Option (LayerMatch P N) :=
  (parse_puzzle puzzle).map fun _ =>
    leaf_layer_match "settlement_layer"
      "crates/chia-sdk-driver/src/layers/settlement_layer.rs"
      "failed to parse settlement solution: " parse_solution solution

/-- `recognize.rs` `try_stream_layer`. -/
def try_stream_layer {P N : Type} (parse_puzzle : P → Option Unit)
    (parse_solution : N → Except String Unit) (puzzle : P)
    (solution : Option N) : Option (LayerMatch P N) :=
  (parse_puzzle puzzle).map fun _ =>
    leaf_layer_match "stream_layer"
      "crates/chia-sdk-driver/src/layers/streaming_layer.rs"
      "failed to parse stream solution: " parse_solution solution

/-- `recognize.rs` `try_standard_layer`. -/
def try_standard_layer {P N : Type} (parse_puzzle : P → Option Unit)
    (parse_solution : N → Except String Unit) (puzzle : P)
    (solution : Option N) : Option (LayerMatch P N) :=
  (parse_puzzle puzzle).map fun _ =>
    leaf_layer_match "standard_layer"
      "crates/chia-sdk-driver/src/layers/standard_layer.rs"
      "failed to parse standard solution: " parse_solution solution

/-- The external layer parsers consumed by `collect_matches`, one
puzzle parser and (where the source calls one) one solution parser per
template, bundled in catalog order. -/
structure Catalog (P N : Type) where
  cat_puzzle : P → Option P
  cat_solution : N → Except String N
  singleton_puzzle : P → Option P
  singleton_solution : N → Except String N
  did_puzzle : P → Option P
  did_solution : N → Except String (DidParsedSolution N)
  nft_state_puzzle : P → Option P
  nft_state_solution : N → Except String N
  nft_ownership_puzzle : P → Option P
  nft_ownership_solution : N → Except String N
  royalty_puzzle : P → Option Unit
  augmented_puzzle : P → Option P
  augmented_solution : N → Except String N
  bulletin_puzzle : P → Option P
  bulletin_solution : N → Except String N
  option_contract_puzzle : P → Option P
  option_contract_solution : N → Except String N
  revocation_puzzle : P → Option Unit
  revocation_solution : N → Except String Unit
  p2_singleton_puzzle : P → Option Unit
  p2_singleton_solution : N → Except String Unit
  p2_curried_puzzle : P → Option Unit
  p2_curried_solution : N → Except String Unit
  p2_one_of_many_puzzle : P → Option Unit
  p2_one_of_many_solution : N → Except String Unit
  p2_delegated_conditions_puzzle : P → Option Unit
  p2_delegated_conditions_solution : N → Except String Unit
  settlement_puzzle : P → Option Unit
  settlement_solution : N → Except String Unit
  stream_puzzle : P → Option Unit
  stream_solution : N → Except String Unit
  standard_puzzle : P → Option Unit
  standard_solution : N → Except String Unit

/-- `recognize.rs` `collect_matches`: run every template in catalog order
and keep the non-`None` results, preserving that order. -/
def collect_matches {P N : Type} (ext : Catalog P N) (puzzle : P)
    (solution : Option N) : List (LayerMatch P N) :=
  (try_cat_layer ext.cat_puzzle ext.cat_solution puzzle solution).toList ++
  (try_singleton_layer ext.singleton_puzzle ext.singleton_solution puzzle
    solution).toList ++
  (try_did_layer ext.did_puzzle ext.did_solution puzzle solution).toList ++
  (try_nft_state_layer ext.nft_state_puzzle ext.nft_state_solution puzzle
    solution).toList ++
  (try_nft_ownership_layer ext.nft_ownership_puzzle
    ext.nft_ownership_solution puzzle solution).toList ++
  (try_royalty_transfer_layer ext.royalty_puzzle puzzle).toList ++
  (try_augmented_condition_layer ext.augmented_puzzle ext.augmented_solution
    puzzle solution).toList ++
  (try_bulletin_layer ext.bulletin_puzzle ext.bulletin_solution puzzle
    solution).toList ++
  (try_option_contract_layer ext.option_contract_puzzle
    ext.option_contract_solution puzzle solution).toList ++
  (try_revocation_layer ext.revocation_puzzle ext.revocation_solution puzzle
    solution).toList ++
  (try_p2_singleton_layer ext.p2_singleton_puzzle ext.p2_singleton_solution
    puzzle solution).toList ++
  (try_p2_curried_layer ext.p2_curried_puzzle ext.p2_curried_solution puzzle
    solution).toList ++
  (try_p2_one_of_many_layer ext.p2_one_of_many_puzzle
    ext.p2_one_of_many_solution puzzle solution).toList ++
  (try_p2_delegated_conditions_layer ext.p2_delegated_conditions_puzzle
    ext.p2_delegated_conditions_solution puzzle solution).toList ++
  (try_settlement_layer ext.settlement_puzzle ext.settlement_solution puzzle
    solution).toList ++
  (try_stream_layer ext.stream_puzzle ext.stream_solution puzzle
    solution).toList ++
  (try_standard_layer ext.standard_puzzle ext.standard_solution puzzle
    solution).toList

/-- Body of `recognize.rs` `recognize_puzzle_and_solution` after input
decoding (lines 62–147): run the peeling loop and assemble the
`PuzzleRecognition` record.  The two `node_from_bytes_backrefs` decodes
(external `clvmr`) are abstracted to their results: an `Except` per input.
A failing puzzle decode returns the fixed unrecognized record; a failing
solution decode degrades to an absent solution plus a recorded
decode-error string. -/
def recognize_core {P N : Type} (hash : P → Nat) (ext : Catalog P N)
    (puzzle_ptr : P) (solution_ptr : Option N)
    (solution_decode_error : Option String) : PuzzleRecognition N :=
  let r := recognizeLoop hash (collect_matches ext) MAX_LAYER_DEPTH
    puzzle_ptr solution_ptr emptyEngine
  let parsed_solution :=
    if r.1.solution_layers.isEmpty ∧ solution_decode_error.isNone then none
    else some
      { layers := r.1.solution_layers, remaining_solution := r.2.1,
        decode_error := solution_decode_error }
  { recognized := !r.1.wrappers.isEmpty, candidates := r.1.candidates,
    wrappers := r.1.wrappers, parsed_solution := parsed_solution }

/-- `recognize.rs` `recognize_puzzle_and_solution`, entry wrapper: decode
handling around `recognize_core`. -/
def recognize_puzzle_and_solution {P N : Type} (hash : P → Nat)
    (ext : Catalog P N) (puzzle_decode : Except String P)
    (solution_decode : Except String N) : PuzzleRecognition N :=
  match puzzle_decode with
  | .error err =>
    { recognized := false, candidates := [], wrappers := [],
      parsed_solution := some
        { layers := [], remaining_solution := none,
          decode_error :=
            some ("failed to decode puzzle_reveal bytes: " ++ err) } }
  | .ok puzzle_ptr =>
    let solution_ptr := solution_decode.toOption
    let solution_decode_error :=
      if solution_ptr.isNone then some "failed to decode solution bytes"
      else none
    recognize_core hash ext puzzle_ptr solution_ptr solution_decode_error

/-! ### Loop equations -/

/-- With no match the loop breaks, leaving the state untouched. -/
theorem recognizeLoop_no_match {P N : Type} (hash : P → Nat)
    (catalog : P → Option N → List (LayerMatch P N)) (fuel : Nat) (p : P)
    (s : Option N) (st : EngineState) (h : catalog p s = []) :
    recognizeLoop hash catalog (fuel + 1) p s st = (st, s, 1) := by
  simp only [recognizeLoop, h]

/-- With two or more matches the loop records every match as a candidate at
the ambiguous confidence, appends the ambiguous trace entry, leaves
`wrappers` untouched and breaks. -/
theorem recognizeLoop_ambiguous {P N : Type} (hash : P → Nat)
    (catalog : P → Option N → List (LayerMatch P N)) (fuel : Nat) (p : P)
    (s : Option N) (st : EngineState) (m1 m2 : LayerMatch P N)
    (rest : List (LayerMatch P N)) (h : catalog p s = m1 :: m2 :: rest) :
    recognizeLoop hash catalog (fuel + 1) p s st =
      ({ st with
          candidates := st.candidates ++
            (m1 :: m2 :: rest).map
              (fun m => candidate_from_match m ambiguous_confidence),
          solution_layers := st.solution_layers ++
            [SolutionLayer.ambiguous ((m1 :: m2 :: rest).map
              (fun m => m.name))] },
       s, 1) := by
  simp only [recognizeLoop, h]

/-- With exactly one match the loop accepts it and then stops (no next
puzzle), stops on a repeated hash, or descends. -/
theorem recognizeLoop_single {P N : Type} (hash : P → Nat)
    (catalog : P → Option N → List (LayerMatch P N)) (fuel : Nat) (p : P)
    (s : Option N) (st : EngineState) (m : LayerMatch P N)
    (h : catalog p s = [m]) :
    recognizeLoop hash catalog (fuel + 1) p s st =
      (match m.next_puzzle with
       | none => (accept_match hash st m, m.next_solution, 1)
       | some np =>
         if hash np = hash p then
           ({ accept_match hash st m with solution_layers :=
               (accept_match hash st m).solution_layers ++
                 [SolutionLayer.stopped_cycle] },
            m.next_solution, 1)
         else
           let r := recognizeLoop hash catalog fuel np m.next_solution
             (accept_match hash st m)
           (r.1, r.2.1, r.2.2 + 1)) := by
  simp only [recognizeLoop, h]

/-- C4 amended: when N ≥ 2 templates match in an iteration, that iteration
appends exactly those N names as candidates, each at confidence 0.5, appends
no Wrapper Record, and the loop stops there. -/
theorem ambiguity_completeness {P N : Type} (hash : P → Nat)
    (catalog : P → Option N → List (LayerMatch P N)) (fuel : Nat) (p : P)
    (s : Option N) (st : EngineState) (m1 m2 : LayerMatch P N)
    (rest : List (LayerMatch P N)) (h : catalog p s = m1 :: m2 :: rest) :
    (recognizeLoop hash catalog (fuel + 1) p s st).1.wrappers = st.wrappers ∧
    (recognizeLoop hash catalog (fuel + 1) p s st).1.candidates =
      st.candidates ++ (m1 :: m2 :: rest).map
        (fun m => candidate_from_match m ambiguous_confidence) ∧
    (recognizeLoop hash catalog (fuel + 1) p s st).2.2 = 1 := by
  rw [recognizeLoop_ambiguous hash catalog fuel p s st m1 m2 rest h]
  exact ⟨rfl, rfl, rfl⟩

/-- C9: when exactly one template matches and it declares an inner puzzle,
the loop either stops at once with the cycle trace entry (equal structural
hash) or descends into the inner puzzle — it never descends on an equal
hash. -/
theorem single_match_progress {P N : Type} (hash : P → Nat)
    (catalog : P → Option N → List (LayerMatch P N)) (fuel : Nat) (p : P)
    (s : Option N) (st : EngineState) (m : LayerMatch P N) (np : P)
    (h : catalog p s = [m]) (hnp : m.next_puzzle = some np) :
    (hash np = hash p →
      recognizeLoop hash catalog (fuel + 1) p s st =
        ({ accept_match hash st m with solution_layers :=
            (accept_match hash st m).solution_layers ++
              [SolutionLayer.stopped_cycle] },
         m.next_solution, 1)) ∧
    (hash np ≠ hash p →
      recognizeLoop hash catalog (fuel + 1) p s st =
        (let r := recognizeLoop hash catalog fuel np m.next_solution
            (accept_match hash st m)
         (r.1, r.2.1, r.2.2 + 1))) := by
  rw [recognizeLoop_single hash catalog fuel p s st m h, hnp]
  simp only []
  constructor
  · intro he
    rw [if_pos he]
  · intro hne
    rw [if_neg hne]

/-- Every match produced by the catalog has one of four builder shapes, each
with a non-empty error-message prefix where a solution parser exists. -/
theorem mem_collect_matches_shape {P N : Type} (ext : Catalog P N) (p : P)
    (s : Option N) (m : LayerMatch P N) (hm : m ∈ collect_matches ext p s) :
    (∃ nm sp msg ps ip, m = wrap_layer_match nm sp msg ps ip s ∧
      msg.length ≠ 0 ∧ nm ≠ "royalty_transfer_layer") ∨
    (∃ nm sp msg ps, m = @leaf_layer_match P N nm sp msg ps s ∧
      msg.length ≠ 0 ∧ nm ≠ "royalty_transfer_layer") ∨
    (∃ ip, m = did_layer_match ext.did_solution ip s) ∨
    m = royalty_layer_match := by
  simp only [collect_matches, List.mem_append, Option.mem_toList,
    Option.mem_def, try_cat_layer, try_singleton_layer, try_did_layer,
    try_nft_state_layer, try_nft_ownership_layer,
    try_royalty_transfer_layer, try_augmented_condition_layer,
    try_bulletin_layer, try_option_contract_layer, try_revocation_layer,
    try_p2_singleton_layer, try_p2_curried_layer, try_p2_one_of_many_layer,
    try_p2_delegated_conditions_layer, try_settlement_layer,
    try_stream_layer, try_standard_layer, Option.map_eq_some'] at hm
  rcases hm with ((((((((((((((((⟨a, -, rfl⟩ | ⟨a, -, rfl⟩) | ⟨a, -, rfl⟩) | ⟨a, -, rfl⟩) | ⟨a, -, rfl⟩) | ⟨a, -, rfl⟩) | ⟨a, -, rfl⟩) | ⟨a, -, rfl⟩) | ⟨a, -, rfl⟩) | ⟨a, -, rfl⟩) | ⟨a, -, rfl⟩) | ⟨a, -, rfl⟩) | ⟨a, -, rfl⟩) | ⟨a, -, rfl⟩) | ⟨a, -, rfl⟩) | ⟨a, -, rfl⟩) | ⟨a, -, rfl⟩)
  · exact Or.inl ⟨_, _, _, _, a, rfl, by decide, by decide⟩
  · exact Or.inl ⟨_, _, _, _, a, rfl, by decide, by decide⟩
  · exact Or.inr (Or.inr (Or.inl ⟨a, rfl⟩))
  · exact Or.inl ⟨_, _, _, _, a, rfl, by decide, by decide⟩
  · exact Or.inl ⟨_, _, _, _, a, rfl, by decide, by decide⟩
  · exact Or.inr (Or.inr (Or.inr rfl))
  · exact Or.inl ⟨_, _, _, _, a, rfl, by decide, by decide⟩
  · exact Or.inl ⟨_, _, _, _, a, rfl, by decide, by decide⟩
  · exact Or.inl ⟨_, _, _, _, a, rfl, by decide, by decide⟩
  · exact Or.inr (Or.inl ⟨_, _, _, _, rfl, by decide, by decide⟩)
  · exact Or.inr (Or.inl ⟨_, _, _, _, rfl, by decide, by decide⟩)
  · exact Or.inr (Or.inl ⟨_, _, _, _, rfl, by decide, by decide⟩)
  · exact Or.inr (Or.inl ⟨_, _, _, _, rfl, by decide, by decide⟩)
  · exact Or.inr (Or.inl ⟨_, _, _, _, rfl, by decide, by decide⟩)
  · exact Or.inr (Or.inl ⟨_, _, _, _, rfl, by decide, by decide⟩)
  · exact Or.inr (Or.inl ⟨_, _, _, _, rfl, by decide, by decide⟩)
  · exact Or.inr (Or.inl ⟨_, _, _, _, rfl, by decide, by decide⟩)

/-- A string with a non-empty left part is not empty after appending. -/
theorem append_ne_empty_of_left (a b : String) (ha : a.length ≠ 0) :
    a ++ b ≠ "" := by
  intro hcontra
  apply ha
  have hlen := congrArg String.length hcontra
  rw [String.length_append] at hlen
  have h0 : ("" : String).length = 0 := rfl
  rw [h0] at hlen
  omega

/-- A recorded wrap-layer parse error always starts with the layer's message
prefix. -/
theorem wrap_outcome_error {N : Type} (msg : String)
    (ps : N → Except String N) (s : Option N) (e : String)
    (h : (wrap_solution_outcome msg ps s).1 = some e) :
    ∃ err, e = msg ++ err := by
  cases s with
  | none => simp [wrap_solution_outcome] at h
  | some ptr =>
    cases hps : ps ptr with
    | ok v => simp [wrap_solution_outcome, hps] at h
    | error err =>
      simp only [wrap_solution_outcome, hps] at h
      exact ⟨err, (Option.some.inj h).symm⟩

/-- A recorded leaf-layer parse error always starts with the layer's message
prefix. -/
theorem leaf_outcome_error {N : Type} (msg : String)
    (ps : N → Except String Unit) (s : Option N) (e : String)
    (h : (leaf_solution_outcome msg ps s).1 = some e) :
    ∃ err, e = msg ++ err := by
  cases s with
  | none => simp [leaf_solution_outcome] at h
  | some ptr =>
    cases hps : ps ptr with
    | ok v => simp [leaf_solution_outcome, hps] at h
    | error err =>
      simp only [leaf_solution_outcome, hps] at h
      exact ⟨err, (Option.some.inj h).symm⟩

/-- A recorded DID parse error always starts with the DID message prefix. -/
theorem did_outcome_error {N : Type}
    (ps : N → Except String (DidParsedSolution N)) (s : Option N) (e : String)
    (h : (did_solution_outcome ps s).1 = some e) :
    ∃ err, e = "failed to parse DID solution: " ++ err := by
  cases s with
  | none => simp [did_solution_outcome] at h
  | some ptr =>
    cases hps : ps ptr with
    | ok v =>
      cases v <;> simp [did_solution_outcome, hps] at h
    | error err =>
      simp only [did_solution_outcome, hps] at h
      exact ⟨err, (Option.some.inj h).symm⟩

/-- Every parse error recorded by any catalog template is a non-empty
string (it carries the template's fixed message prefix). -/
theorem collect_matches_error_message {P N : Type} (ext : Catalog P N)
    (p : P) (s : Option N) (m : LayerMatch P N)
    (hm : m ∈ collect_matches ext p s) (e : String)
    (he : m.parse_error = some e) : e ≠ "" := by
  rcases mem_collect_matches_shape ext p s m hm with
    ⟨nm, sp, msg, ps, ip, rfl, hmsg, -⟩ | ⟨nm, sp, msg, ps, rfl, hmsg, -⟩ |
    ⟨ip, rfl⟩ | rfl
  · obtain ⟨err, rfl⟩ := wrap_outcome_error msg ps s e he
    exact append_ne_empty_of_left _ _ hmsg
  · obtain ⟨err, rfl⟩ := leaf_outcome_error msg ps s e he
    exact append_ne_empty_of_left _ _ hmsg
  · obtain ⟨err, rfl⟩ := did_outcome_error ext.did_solution s e he
    exact append_ne_empty_of_left _ _ (by decide)
  · exact absurd he (by simp [royalty_layer_match])

/-- With an absent solution every template reports no parse error and no
next solution; the royalty transfer layer (and only it) reports its fixed
unsupported outcome, while every other template reports the
missing-solution outcome. -/
theorem collect_matches_no_solution {P N : Type} (ext : Catalog P N) (p : P)
    (m : LayerMatch P N) (hm : m ∈ collect_matches ext p none) :
    m.parse_error = none ∧ m.next_solution = none ∧
      ((m.name = "royalty_transfer_layer" ∧
        m.solution = SolutionStatus.unsupported) ∨
       (m.name ≠ "royalty_transfer_layer" ∧
        m.solution = SolutionStatus.missing_solution)) := by
  rcases mem_collect_matches_shape ext p none m hm with
    ⟨nm, sp, msg, ps, ip, rfl, -, hnm⟩ | ⟨nm, sp, msg, ps, rfl, -, hnm⟩ |
    ⟨ip, rfl⟩ | rfl
  · exact ⟨rfl, rfl, Or.inr ⟨hnm, rfl⟩⟩
  · exact ⟨rfl, rfl, Or.inr ⟨hnm, rfl⟩⟩
  · have hd : ("did_layer" : String) ≠ "royalty_transfer_layer" := by decide
    exact ⟨rfl, rfl, Or.inr ⟨hd, rfl⟩⟩
  · exact ⟨rfl, rfl, Or.inl ⟨rfl, rfl⟩⟩

/-- The loop executes at most `fuel` iterations. -/
theorem recognizeLoop_iterations_le {P N : Type} (hash : P → Nat)
    (catalog : P → Option N → List (LayerMatch P N)) :
    ∀ (fuel : Nat) (p : P) (s : Option N) (st : EngineState),
      (recognizeLoop hash catalog fuel p s st).2.2 ≤ fuel := by
  intro fuel
  induction fuel with
  | zero =>
    intro p s st
    simp [recognizeLoop]
  | succ fuel ih =>
    intro p s st
    cases h : catalog p s with
    | nil =>
      rw [recognizeLoop_no_match hash catalog fuel p s st h]
      exact Nat.succ_le_succ (Nat.zero_le _)
    | cons m1 tail =>
      cases tail with
      | nil =>
        rw [recognizeLoop_single hash catalog fuel p s st m1 h]
        cases hnp : m1.next_puzzle with
        | none =>
          simp only []
          exact Nat.succ_le_succ (Nat.zero_le _)
        | some np =>
          simp only []
          by_cases he : hash np = hash p
          · rw [if_pos he]
            exact Nat.succ_le_succ (Nat.zero_le _)
          · rw [if_neg he]
            simp only []
            exact Nat.succ_le_succ (ih np m1.next_solution _)
      | cons m2 rest =>
        rw [recognizeLoop_ambiguous hash catalog fuel p s st m1 m2 rest h]
        exact Nat.succ_le_succ (Nat.zero_le _)

/-- Each loop iteration appends at most one Wrapper Record. -/
theorem recognizeLoop_wrappers_le {P N : Type} (hash : P → Nat)
    (catalog : P → Option N → List (LayerMatch P N)) :
    ∀ (fuel : Nat) (p : P) (s : Option N) (st : EngineState),
      (recognizeLoop hash catalog fuel p s st).1.wrappers.length ≤
        st.wrappers.length + fuel := by
  intro fuel
  induction fuel with
  | zero =>
    intro p s st
    simp [recognizeLoop]
  | succ fuel ih =>
    intro p s st
    cases h : catalog p s with
    | nil =>
      rw [recognizeLoop_no_match hash catalog fuel p s st h]
      show st.wrappers.length ≤ st.wrappers.length + (fuel + 1)
      omega
    | cons m1 tail =>
      cases tail with
      | nil =>
        rw [recognizeLoop_single hash catalog fuel p s st m1 h]
        have hacc : (accept_match hash st m1).wrappers.length =
            st.wrappers.length + 1 := by
          simp [accept_match]
        cases hnp : m1.next_puzzle with
        | none =>
          show (accept_match hash st m1).wrappers.length ≤
            st.wrappers.length + (fuel + 1)
          omega
        | some np =>
          simp only []
          by_cases he : hash np = hash p
          · rw [if_pos he]
            show (accept_match hash st m1).wrappers.length ≤
              st.wrappers.length + (fuel + 1)
            omega
          · rw [if_neg he]
            show (recognizeLoop hash catalog fuel np m1.next_solution
              (accept_match hash st m1)).1.wrappers.length ≤
              st.wrappers.length + (fuel + 1)
            have := ih np m1.next_solution (accept_match hash st m1)
            omega
      | cons m2 rest =>
        rw [recognizeLoop_ambiguous hash catalog fuel p s st m1 m2 rest h]
        show st.wrappers.length ≤ st.wrappers.length + (fuel + 1)
        omega

/-- The loop preserves `wrappers length ≤ candidates length`: an accepted
match appends one of each, an ambiguous iteration appends only
candidates. -/
theorem recognizeLoop_candidates_ge {P N : Type} (hash : P → Nat)
    (catalog : P → Option N → List (LayerMatch P N)) :
    ∀ (fuel : Nat) (p : P) (s : Option N) (st : EngineState),
      st.wrappers.length ≤ st.candidates.length →
      (recognizeLoop hash catalog fuel p s st).1.wrappers.length ≤
        (recognizeLoop hash catalog fuel p s st).1.candidates.length := by
  intro fuel
  induction fuel with
  | zero =>
    intro p s st hst
    simpa [recognizeLoop] using hst
  | succ fuel ih =>
    intro p s st hst
    cases h : catalog p s with
    | nil =>
      rw [recognizeLoop_no_match hash catalog fuel p s st h]
      exact hst
    | cons m1 tail =>
      cases tail with
      | nil =>
        rw [recognizeLoop_single hash catalog fuel p s st m1 h]
        have hacc : (accept_match hash st m1).wrappers.length ≤
            (accept_match hash st m1).candidates.length := by
          simp only [accept_match, List.length_append, List.length_singleton]
          omega
        cases hnp : m1.next_puzzle with
        | none =>
          simp only []
          exact hacc
        | some np =>
          simp only []
          by_cases he : hash np = hash p
          · rw [if_pos he]
            exact hacc
          · rw [if_neg he]
            simp only []
            exact ih np m1.next_solution _ hacc
      | cons m2 rest =>
        rw [recognizeLoop_ambiguous hash catalog fuel p s st m1 m2 rest h]
        simp only [List.length_append, List.length_map, List.length_cons]
        omega

/-- A solution-trace entry that, if it is a layer entry, reports the
unsupported outcome when (and only when) it belongs to the royalty
transfer layer, and the missing-solution outcome for every other layer. -/
def layer_trace_absent (l : SolutionLayer) : Prop :=
  ∀ nm stt, l = SolutionLayer.layer nm stt →
    (nm = "royalty_transfer_layer" ∧ stt = SolutionStatus.unsupported) ∨
    (nm ≠ "royalty_transfer_layer" ∧ stt = SolutionStatus.missing_solution)

/-- Running the loop with an absent solution keeps the solution absent and
produces: only clean wrappers (no parse error); candidates at confidence
1.0 or 0.5, with the number of confidence-1.0 candidates equal to the
number of wrappers (one per accepted layer — ambiguous iterations only add
0.5 candidates); and layer trace entries that report the unsupported
outcome exactly for the royalty transfer layer and the missing-solution
outcome for every other layer — provided every catalog match on an absent
solution has those properties. -/
theorem recognizeLoop_no_solution {P N : Type} (hash : P → Nat)
    (catalog : P → Option N → List (LayerMatch P N))
    (Hcat : ∀ (p : P) (m : LayerMatch P N), m ∈ catalog p none →
      m.parse_error = none ∧ m.next_solution = none ∧
        ((m.name = "royalty_transfer_layer" ∧
          m.solution = SolutionStatus.unsupported) ∨
         (m.name ≠ "royalty_transfer_layer" ∧
          m.solution = SolutionStatus.missing_solution))) :
    ∀ (fuel : Nat) (p : P) (st : EngineState),
      (∀ w ∈ st.wrappers, w.parse_error = none) →
      (∀ c ∈ st.candidates, c.confidence = matched_clean_confidence ∨
        c.confidence = ambiguous_confidence) →
      (∀ l ∈ st.solution_layers, layer_trace_absent l) →
      st.candidates.countP
        (fun c => decide (c.confidence = matched_clean_confidence)) =
        st.wrappers.length →
      ((∀ w ∈ (recognizeLoop hash catalog fuel p none st).1.wrappers,
          w.parse_error = none) ∧
       (∀ c ∈ (recognizeLoop hash catalog fuel p none st).1.candidates,
          c.confidence = matched_clean_confidence ∨
          c.confidence = ambiguous_confidence) ∧
       (recognizeLoop hash catalog fuel p none st).1.candidates.countP
          (fun c => decide (c.confidence = matched_clean_confidence)) =
          (recognizeLoop hash catalog fuel p none st).1.wrappers.length ∧
       (∀ l ∈ (recognizeLoop hash catalog fuel p none st).1.solution_layers,
          layer_trace_absent l) ∧
       (recognizeLoop hash catalog fuel p none st).2.1 = none) := by
  intro fuel
  induction fuel with
  | zero =>
    intro p st hw hc hl hcount
    exact ⟨hw, hc, hcount, hl, rfl⟩
  | succ fuel ih =>
    intro p st hw hc hl hcount
    cases h : catalog p none with
    | nil =>
      rw [recognizeLoop_no_match hash catalog fuel p none st h]
      exact ⟨hw, hc, hcount, hl, rfl⟩
    | cons m1 tail =>
      cases tail with
      | nil =>
        obtain ⟨hpe, hns, hstat⟩ := Hcat p m1 (h ▸ List.mem_singleton_self m1)
        have hw1 : ∀ w ∈ (accept_match hash st m1).wrappers,
            w.parse_error = none := by
          intro w hmem
          simp only [accept_match, List.mem_append, List.mem_singleton]
            at hmem
          rcases hmem with hmem | rfl
          · exact hw w hmem
          · exact hpe
        have hc1 : ∀ c ∈ (accept_match hash st m1).candidates,
            c.confidence = matched_clean_confidence ∨
            c.confidence = ambiguous_confidence := by
          intro c hmem
          simp only [accept_match, List.mem_append, List.mem_singleton]
            at hmem
          rcases hmem with hmem | rfl
          · exact hc c hmem
          · refine Or.inl ?_
            simp [candidate_from_match, hpe]
        have hone : List.countP
            (fun c => decide (c.confidence = matched_clean_confidence))
            [candidate_from_match m1
              (if m1.parse_error.isSome then matched_error_confidence
               else matched_clean_confidence)] = 1 := by
          simp [candidate_from_match, hpe, List.countP_cons]
        have hcount1 : (accept_match hash st m1).candidates.countP
            (fun c => decide (c.confidence = matched_clean_confidence)) =
            (accept_match hash st m1).wrappers.length := by
          simp only [accept_match, List.countP_append, List.length_append,
            List.length_singleton]
          rw [hone, hcount]
        have hl1 : ∀ l ∈ (accept_match hash st m1).solution_layers,
            layer_trace_absent l := by
          intro l hmem
          simp only [accept_match, List.mem_append, List.mem_singleton]
            at hmem
          rcases hmem with hmem | rfl
          · exact hl l hmem
          · intro nm stt hlayer
            cases hlayer
            exact hstat
        rw [recognizeLoop_single hash catalog fuel p none st m1 h]
        cases hnp : m1.next_puzzle with
        | none =>
          exact ⟨hw1, hc1, hcount1, hl1, hns⟩
        | some np =>
          simp only []
          by_cases he : hash np = hash p
          · rw [if_pos he]
            refine ⟨hw1, hc1, hcount1, ?_, hns⟩
            intro l hmem
            simp only [List.mem_append, List.mem_singleton] at hmem
            rcases hmem with hmem | rfl
            · exact hl1 l hmem
            · intro nm stt hlayer
              cases hlayer
          · rw [if_neg he]
            rw [hns]
            exact ih np (accept_match hash st m1) hw1 hc1 hl1 hcount1
      | cons m2 rest =>
        rw [recognizeLoop_ambiguous hash catalog fuel p none st m1 m2 rest h]
        have hzero : List.countP
            (fun c => decide (c.confidence = matched_clean_confidence))
            ((m1 :: m2 :: rest).map
              (fun m => candidate_from_match m ambiguous_confidence)) = 0 := by
          rw [List.countP_eq_zero]
          intro c hcmem
          simp only [List.mem_map] at hcmem
          obtain ⟨m, -, rfl⟩ := hcmem
          norm_num [candidate_from_match, ambiguous_confidence,
            matched_clean_confidence]
        refine ⟨hw, ?_, ?_, ?_, rfl⟩
        · intro c hmem
          simp only [List.mem_append, List.mem_map] at hmem
          rcases hmem with hmem | ⟨m, -, rfl⟩
          · exact hc c hmem
          · exact Or.inr rfl
        · simp only [List.countP_append]
          rw [hzero, hcount]
          omega
        · intro l hmem
          simp only [List.mem_append, List.mem_singleton] at hmem
          rcases hmem with hmem | rfl
          · exact hl l hmem
          · intro nm stt hlayer
            cases hlayer

/-- Unfolding of `recognize_puzzle_and_solution` when the puzzle decodes and
the solution bytes fail to decode: the loop runs with an absent solution and
the decode-error string is recorded in `parsed_solution`. -/
theorem recognize_solution_decode_error {P N : Type} (hash : P → Nat)
    (ext : Catalog P N) (p : P) (e : String) :
    recognize_puzzle_and_solution hash ext (Except.ok p) (Except.error e) =
      { recognized := !(recognizeLoop hash (collect_matches ext)
          MAX_LAYER_DEPTH p none emptyEngine).1.wrappers.isEmpty,
        candidates := (recognizeLoop hash (collect_matches ext)
          MAX_LAYER_DEPTH p none emptyEngine).1.candidates,
        wrappers := (recognizeLoop hash (collect_matches ext)
          MAX_LAYER_DEPTH p none emptyEngine).1.wrappers,
        parsed_solution := some
          { layers := (recognizeLoop hash (collect_matches ext)
              MAX_LAYER_DEPTH p none emptyEngine).1.solution_layers,
            remaining_solution := (recognizeLoop hash (collect_matches ext)
              MAX_LAYER_DEPTH p none emptyEngine).2.1,
            decode_error := some "failed to decode solution bytes" } } := by
  have hstep : recognize_puzzle_and_solution hash ext (Except.ok p)
      (Except.error e) =
      recognize_core hash ext p none (some "failed to decode solution bytes") :=
    rfl
  rw [hstep]
  unfold recognize_core
  simp only [Option.isNone_some, Bool.false_eq_true, and_false, if_false]

/-- Projection of the recognition record constructor: wrappers. -/
theorem mk_wrappers {N : Type} (a : Bool) (b : List PuzzleCandidate)
    (c : List WrapperInfo) (d : Option (ParsedSolution N)) :
    (PuzzleRecognition.mk a b c d).wrappers = c := rfl

/-- Projection of the recognition record constructor: candidates. -/
theorem mk_candidates {N : Type} (a : Bool) (b : List PuzzleCandidate)
    (c : List WrapperInfo) (d : Option (ParsedSolution N)) :
    (PuzzleRecognition.mk a b c d).candidates = b := rfl

/-- Projection of the recognition record constructor: parsed solution. -/
theorem mk_parsed {N : Type} (a : Bool) (b : List PuzzleCandidate)
    (c : List WrapperInfo) (d : Option (ParsedSolution N)) :
    (PuzzleRecognition.mk a b c d).parsed_solution = d := rfl

/-- Unfolding of `recognize_core` into the explicit record constructor. -/
theorem recognize_core_eq {P N : Type} (hash : P → Nat) (ext : Catalog P N)
    (p : P) (s : Option N) (sde : Option String) :
    recognize_core hash ext p s sde =
      PuzzleRecognition.mk
        (!(recognizeLoop hash (collect_matches ext) MAX_LAYER_DEPTH p s
            emptyEngine).1.wrappers.isEmpty)
        ((recognizeLoop hash (collect_matches ext) MAX_LAYER_DEPTH p s
            emptyEngine).1.candidates)
        ((recognizeLoop hash (collect_matches ext) MAX_LAYER_DEPTH p s
            emptyEngine).1.wrappers)
        (if (recognizeLoop hash (collect_matches ext) MAX_LAYER_DEPTH p s
              emptyEngine).1.solution_layers.isEmpty ∧ sde.isNone then none
         else some
           { layers := (recognizeLoop hash (collect_matches ext)
               MAX_LAYER_DEPTH p s emptyEngine).1.solution_layers,
             remaining_solution := (recognizeLoop hash (collect_matches ext)
               MAX_LAYER_DEPTH p s emptyEngine).2.1,
             decode_error := sde }) := rfl

/-- Unfolding of the entry wrapper on a successful puzzle decode. -/
theorem recognize_ok_eq {P N : Type} (hash : P → Nat) (ext : Catalog P N)
    (p : P) (sd : Except String N) :
    recognize_puzzle_and_solution hash ext (Except.ok p) sd =
      recognize_core hash ext p sd.toOption
        (if sd.toOption.isNone then some "failed to decode solution bytes"
         else none) := rfl

/-- Unfolding of the entry wrapper on a failing puzzle decode. -/
theorem recognize_puzzle_decode_error {P N : Type} (hash : P → Nat)
    (ext : Catalog P N) (err : String) (sd : Except String N) :
    recognize_puzzle_and_solution hash ext (Except.error err) sd =
      PuzzleRecognition.mk false [] []
        (some { layers := [], remaining_solution := none,
                decode_error :=
                  some ("failed to decode puzzle_reveal bytes: " ++ err) }) :=
  rfl

/-- C10 amended: when the puzzle decodes but the solution bytes fail to
decode, recognition still runs (solution treated as absent): no wrapper
carries a parse error; every candidate is at confidence 1.0 or 0.5, with
exactly one confidence-1.0 candidate per Wrapper Record (accepted layer) —
so ambiguous iterations only contribute the 0.5 candidates; and the
returned `parsed_solution` records the decode-error string alongside the
layer trace, whose every layer entry reports the missing-solution outcome,
except an entry of the royalty transfer layer, which always reports that
layer's fixed unsupported outcome. -/
theorem solution_decode_failure_resilience {P N : Type} (hash : P → Nat)
    (ext : Catalog P N) (p : P) (e : String) :
    (∀ w ∈ (recognize_puzzle_and_solution hash ext (Except.ok p)
        (Except.error e)).wrappers, w.parse_error = none) ∧
    (∀ c ∈ (recognize_puzzle_and_solution hash ext (Except.ok p)
        (Except.error e)).candidates,
      c.confidence = matched_clean_confidence ∨
      c.confidence = ambiguous_confidence) ∧
    ((recognize_puzzle_and_solution hash ext (Except.ok p)
        (Except.error e)).candidates.countP
      (fun c => decide (c.confidence = matched_clean_confidence)) =
      (recognize_puzzle_and_solution hash ext (Except.ok p)
        (Except.error e)).wrappers.length) ∧
    (∃ ps, (recognize_puzzle_and_solution hash ext (Except.ok p)
        (Except.error e)).parsed_solution = some ps ∧
      ps.decode_error = some "failed to decode solution bytes" ∧
      ∀ l ∈ ps.layers, layer_trace_absent l) := by
  have h1 : ∀ w ∈ emptyEngine.wrappers, w.parse_error = none := by
    intro w hw
    cases hw
  have h2 : ∀ c ∈ emptyEngine.candidates,
      c.confidence = matched_clean_confidence ∨
      c.confidence = ambiguous_confidence := by
    intro c hc
    cases hc
  have h3 : ∀ l ∈ emptyEngine.solution_layers, layer_trace_absent l := by
    intro l hl
    cases hl
  have h4 : emptyEngine.candidates.countP
      (fun c => decide (c.confidence = matched_clean_confidence)) =
      emptyEngine.wrappers.length := rfl
  have hmain := recognizeLoop_no_solution hash (collect_matches ext)
    (fun q m hm => collect_matches_no_solution ext q m hm) MAX_LAYER_DEPTH p
    emptyEngine h1 h2 h3 h4
  have heq := recognize_solution_decode_error hash ext p e
  have hw_eq := (congrArg PuzzleRecognition.wrappers heq).trans
    (mk_wrappers _ _ _ _)
  have hc_eq := (congrArg PuzzleRecognition.candidates heq).trans
    (mk_candidates _ _ _ _)
  have hp_eq := (congrArg PuzzleRecognition.parsed_solution heq).trans
    (mk_parsed _ _ _ _)
  refine ⟨?_, ?_, ?_, ?_⟩
  · rw [hw_eq]
    exact hmain.1
  · rw [hc_eq]
    exact hmain.2.1
  · rw [hw_eq, hc_eq]
    exact hmain.2.2.1
  · rw [hp_eq]
    exact ⟨_, rfl, rfl, hmain.2.2.2.1⟩

/-- C5: the peeling loop executes at most `MAX_LAYER_DEPTH` = 32 iterations
(hence at most 33), whatever the catalog; the recognition result never
carries more than 32 Wrapper Records. -/
theorem peeling_termination :
    (∀ (P N : Type) (hash : P → Nat)
      (catalog : P → Option N → List (LayerMatch P N)) (p : P)
      (s : Option N) (st : EngineState),
      (recognizeLoop hash catalog MAX_LAYER_DEPTH p s st).2.2 ≤ 33) ∧
    (∀ (P N : Type) (hash : P → Nat) (ext : Catalog P N)
      (pd : Except String P) (sd : Except String N),
      (recognize_puzzle_and_solution hash ext pd sd).wrappers.length ≤ 32) := by
  constructor
  · intro P N hash catalog p s st
    exact le_trans (recognizeLoop_iterations_le hash catalog _ p s st)
      (by norm_num [MAX_LAYER_DEPTH])
  · intro P N hash ext pd sd
    cases pd with
    | error err =>
      rw [(congrArg PuzzleRecognition.wrappers
        (recognize_puzzle_decode_error hash ext err sd)).trans
        (mk_wrappers _ _ _ _)]
      simp
    | ok p =>
      rw [((congrArg PuzzleRecognition.wrappers
        (recognize_ok_eq hash ext p sd)).trans
        ((congrArg PuzzleRecognition.wrappers
          (recognize_core_eq hash ext p sd.toOption _)).trans
          (mk_wrappers _ _ _ _)))]
      have hb := recognizeLoop_wrappers_le hash (collect_matches ext)
        MAX_LAYER_DEPTH p sd.toOption emptyEngine
      have h0 : emptyEngine.wrappers.length + MAX_LAYER_DEPTH = 32 := rfl
      rw [h0] at hb
      exact hb

/-- C8: in every recognition result the candidates sequence is at least as
long as the wrappers sequence. -/
theorem candidates_ge_wrappers (P N : Type) (hash : P → Nat)
    (ext : Catalog P N) (pd : Except String P) (sd : Except String N) :
    (recognize_puzzle_and_solution hash ext pd sd).wrappers.length ≤
      (recognize_puzzle_and_solution hash ext pd sd).candidates.length := by
  cases pd with
  | error err =>
    have heq := recognize_puzzle_decode_error hash ext err sd
    rw [(congrArg PuzzleRecognition.wrappers heq).trans (mk_wrappers _ _ _ _),
      (congrArg PuzzleRecognition.candidates heq).trans (mk_candidates _ _ _ _)]
    simp
  | ok p =>
    have heq := (recognize_ok_eq hash ext p sd).trans
      (recognize_core_eq hash ext p sd.toOption _)
    rw [(congrArg PuzzleRecognition.wrappers heq).trans (mk_wrappers _ _ _ _),
      (congrArg PuzzleRecognition.candidates heq).trans (mk_candidates _ _ _ _)]
    have h0 : emptyEngine.wrappers.length ≤ emptyEngine.candidates.length :=
      Nat.le_refl 0
    exact recognizeLoop_candidates_ge hash (collect_matches ext)
      MAX_LAYER_DEPTH p sd.toOption emptyEngine h0

/-- C1 amended: when the single matching template's solution parse fails,
the iteration appends exactly one Wrapper Record carrying the (always
non-empty, prefix-carrying) parse error, the candidate is recorded at
confidence 0.8, and — when the template declares an inner puzzle of a new
hash — peeling continues into that inner puzzle rather than stopping. -/
theorem parse_error_degrades_and_descends :
    (∀ (P N : Type) (hash : P → Nat)
      (catalog : P → Option N → List (LayerMatch P N)) (fuel : Nat) (p : P)
      (s : Option N) (st : EngineState) (m : LayerMatch P N) (e : String)
      (np : P), catalog p s = [m] → m.parse_error = some e →
      m.next_puzzle = some np → hash np ≠ hash p →
      ((accept_match hash st m).wrappers = st.wrappers ++
        [{ name := m.name, inner_puzzle_tree_hash := some (hash np),
           parse_error := some e }] ∧
       (accept_match hash st m).candidates = st.candidates ++
        [candidate_from_match m matched_error_confidence] ∧
       recognizeLoop hash catalog (fuel + 1) p s st =
         (let r := recognizeLoop hash catalog fuel np m.next_solution
             (accept_match hash st m)
          (r.1, r.2.1, r.2.2 + 1)))) ∧
    (∀ (P N : Type) (ext : Catalog P N) (p : P) (s : Option N)
      (m : LayerMatch P N) (e : String), m ∈ collect_matches ext p s →
      m.parse_error = some e → e ≠ "") := by
  constructor
  · intro P N hash catalog fuel p s st m e np hcat hpe hnp hne
    refine ⟨?_, ?_, ?_⟩
    · simp [accept_match, hnp, hpe]
    · simp [accept_match, hpe, matched_error_confidence]
    · rw [recognizeLoop_single hash catalog fuel p s st m hcat, hnp]
      simp only []
      rw [if_neg hne]
  · intro P N ext p s m e hm hpe
    exact collect_matches_error_message ext p s m hm e hpe

/-- A concrete failing-solution match used to evaluate the amended C1 on
concrete input: a CAT-shaped layer whose solution parse failed. -/
def c1Match : LayerMatch Nat Nat :=
  { name := "cat_layer",
    source_path := "crates/chia-sdk-driver/src/layers/cat_layer.rs",
    next_puzzle := some 1, next_solution := none,
    solution := .error "bad",
    parse_error := some "failed to parse CAT solution: bad" }

/-- A one-template catalog function recognising puzzle 0 as `c1Match`. -/
def c1LoopCatalog : Nat → Option Nat → List (LayerMatch Nat Nat) :=
  fun p _ => if p = 0 then [c1Match] else []

/-- C1 amended witness: at puzzle 0 with solution 5 the single failing
match yields the 0.8 candidate, the parse-error wrapper, and descent into
inner puzzle 1. -/
theorem parse_error_degrades_and_descends_witness :
    (c1LoopCatalog 0 (some 5) = [c1Match] ∧
     c1Match.parse_error = some "failed to parse CAT solution: bad" ∧
     c1Match.next_puzzle = some 1 ∧ id (1 : Nat) ≠ id (0 : Nat)) ∧
    ((accept_match id emptyEngine c1Match).wrappers = emptyEngine.wrappers ++
      [{ name := c1Match.name, inner_puzzle_tree_hash := some (id 1),
         parse_error := some "failed to parse CAT solution: bad" }] ∧
     (accept_match id emptyEngine c1Match).candidates =
       emptyEngine.candidates ++
         [candidate_from_match c1Match matched_error_confidence] ∧
     recognizeLoop id c1LoopCatalog (0 + 1) 0 (some 5) emptyEngine =
       (let r := recognizeLoop id c1LoopCatalog 0 1 c1Match.next_solution
           (accept_match id emptyEngine c1Match)
        (r.1, r.2.1, r.2.2 + 1))) :=
  ⟨⟨rfl, rfl, rfl, by decide⟩,
   parse_error_degrades_and_descends.1 Nat Nat id c1LoopCatalog 0 0 (some 5)
     emptyEngine c1Match "failed to parse CAT solution: bad" 1 rfl rfl rfl
     (by decide)⟩

/-- C9 witness match: a singleton-shaped layer whose inner puzzle has the
same hash as the current puzzle (hash is the identity on 0). -/
def c9Match : LayerMatch Nat Nat :=
  { name := "singleton_layer",
    source_path := "crates/chia-sdk-driver/src/layers/singleton_layer.rs",
    next_puzzle := some 0, next_solution := none,
    solution := .missing_solution, parse_error := none }

/-- A one-template catalog function recognising puzzle 0 as `c9Match`. -/
def c9LoopCatalog : Nat → Option Nat → List (LayerMatch Nat Nat) :=
  fun p _ => if p = 0 then [c9Match] else []

/-- A two-template catalog function: puzzle 0 matches two templates at
once, used to evaluate the ambiguous iteration on concrete input. -/
def c4LoopCatalog : Nat → Option Nat → List (LayerMatch Nat Nat) :=
  fun p _ => if p = 0 then [c9Match, c1Match] else []

/-- C9 witness: at puzzle 0 the unique match declares inner puzzle 0 with
the same hash, and the loop stops with the cycle trace entry. -/
theorem single_match_progress_witness :
    (c9LoopCatalog 0 none = [c9Match] ∧ c9Match.next_puzzle = some 0) ∧
    (id (0 : Nat) = id (0 : Nat) →
      recognizeLoop id c9LoopCatalog (5 + 1) 0 none emptyEngine =
        ({ accept_match id emptyEngine c9Match with solution_layers :=
            (accept_match id emptyEngine c9Match).solution_layers ++
              [SolutionLayer.stopped_cycle] },
         c9Match.next_solution, 1)) :=
  ⟨⟨rfl, rfl⟩,
   (single_match_progress id c9LoopCatalog 5 0 none emptyEngine c9Match 0
     rfl rfl).1⟩

/-- C4 witness: with two matches at puzzle 0 the iteration appends exactly
the two candidates at 0.5, appends no wrapper, and stops after one
iteration. -/
theorem ambiguity_completeness_witness :
    c4LoopCatalog 0 none = [c9Match, c1Match] ∧
    ((recognizeLoop id c4LoopCatalog (7 + 1) 0 none emptyEngine).1.wrappers =
      emptyEngine.wrappers ∧
     (recognizeLoop id c4LoopCatalog (7 + 1) 0 none
        emptyEngine).1.candidates = emptyEngine.candidates ++
       ([c9Match, c1Match].map
         (fun m => candidate_from_match m ambiguous_confidence)) ∧
     (recognizeLoop id c4LoopCatalog (7 + 1) 0 none emptyEngine).2.2 = 1) :=
  ⟨rfl,
   ambiguity_completeness id c4LoopCatalog 7 0 none emptyEngine c9Match
     c1Match [] rfl⟩

/-- A catalog instance in which every template declines every puzzle. -/
def emptyCatalog : Catalog Nat Nat :=
  { cat_puzzle := fun _ => none, cat_solution := fun _ => .error "unexpected",
    singleton_puzzle := fun _ => none,
    singleton_solution := fun _ => .error "unexpected",
    did_puzzle := fun _ => none, did_solution := fun _ => .error "unexpected",
    nft_state_puzzle := fun _ => none,
    nft_state_solution := fun _ => .error "unexpected",
    nft_ownership_puzzle := fun _ => none,
    nft_ownership_solution := fun _ => .error "unexpected",
    royalty_puzzle := fun _ => none,
    augmented_puzzle := fun _ => none,
    augmented_solution := fun _ => .error "unexpected",
    bulletin_puzzle := fun _ => none,
    bulletin_solution := fun _ => .error "unexpected",
    option_contract_puzzle := fun _ => none,
    option_contract_solution := fun _ => .error "unexpected",
    revocation_puzzle := fun _ => none,
    revocation_solution := fun _ => .error "unexpected",
    p2_singleton_puzzle := fun _ => none,
    p2_singleton_solution := fun _ => .error "unexpected",
    p2_curried_puzzle := fun _ => none,
    p2_curried_solution := fun _ => .error "unexpected",
    p2_one_of_many_puzzle := fun _ => none,
    p2_one_of_many_solution := fun _ => .error "unexpected",
    p2_delegated_conditions_puzzle := fun _ => none,
    p2_delegated_conditions_solution := fun _ => .error "unexpected",
    settlement_puzzle := fun _ => none,
    settlement_solution := fun _ => .error "unexpected",
    stream_puzzle := fun _ => none,
    stream_solution := fun _ => .error "unexpected",
    standard_puzzle := fun _ => none,
    standard_solution := fun _ => .error "unexpected" }

/-- A catalog in which puzzle 0 is a CAT layer wrapping puzzle 1 (a
standard layer) and the CAT solution parser always fails. -/
def c1Catalog : Catalog Nat Nat :=
  { emptyCatalog with
    cat_puzzle := fun p => if p = 0 then some 1 else none,
    cat_solution := fun _ => .error "bad shape",
    standard_puzzle := fun p => if p = 1 then some () else none }

/-- C1 counterexample: at puzzle 0 exactly one template (the CAT layer)
matches and its solution parse fails, yet recognition does NOT stop at that
layer: it descends into the inner standard layer with the solution treated
as absent, appending a second Wrapper Record. -/
theorem parse_error_stop_counterexample :
    (collect_matches c1Catalog 0 (some 5)).map
        (fun m => (m.name, m.parse_error)) =
      [("cat_layer", some "failed to parse CAT solution: bad shape")] ∧
    (recognize_puzzle_and_solution id c1Catalog (Except.ok 0)
        (Except.ok 5)).wrappers.map (fun w => w.name) =
      ["cat_layer", "standard_layer"] :=
  ⟨rfl, rfl⟩

/-- A catalog in which puzzle 0 is a CAT layer wrapping puzzle 1, and
puzzle 1 matches two templates (settlement and standard) at once. -/
def c4Catalog : Catalog Nat Nat :=
  { emptyCatalog with
    cat_puzzle := fun p => if p = 0 then some 1 else none,
    settlement_puzzle := fun p => if p = 1 then some () else none,
    standard_puzzle := fun p => if p = 1 then some () else none }

/-- C4 counterexample: the second iteration matches N = 2 templates, but
the final candidate list is not exactly those two names at 0.5: it also
carries the first iteration's accepted candidate at confidence 1.0. -/
theorem ambiguity_exact_counterexample :
    (collect_matches c4Catalog 1 none).map (fun m => m.name) =
      ["settlement_layer", "standard_layer"] ∧
    (recognize_puzzle_and_solution id c4Catalog (Except.ok 0)
        (Except.error "bad solution")).candidates.map
        (fun c => (c.name, c.confidence)) =
      [("cat_layer", matched_clean_confidence),
       ("settlement_layer", ambiguous_confidence),
       ("standard_layer", ambiguous_confidence)] :=
  ⟨rfl, rfl⟩

/-- A catalog in which puzzle 0 is a royalty transfer layer. -/
def c10Catalog : Catalog Nat Nat :=
  { emptyCatalog with
    royalty_puzzle := fun p => if p = 0 then some () else none }

/-- C10 counterexample: with an undecodable solution a matched royalty
transfer layer reports its fixed `unsupported` outcome, not the
missing-solution outcome — so not every matched layer reports
missing-solution. -/
theorem missing_solution_outcome_counterexample :
    (recognize_puzzle_and_solution id c10Catalog (Except.ok 0)
        (Except.error "oops")).parsed_solution =
      some { layers := [SolutionLayer.layer "royalty_transfer_layer"
               SolutionStatus.unsupported],
             remaining_solution := none,
             decode_error := some "failed to decode solution bytes" } ∧
    SolutionStatus.unsupported ≠ SolutionStatus.missing_solution :=
  ⟨rfl, by decide⟩

/-- C10 amended witness: in the royalty-layer run with an undecodable
solution, the single wrapper produced carries no parse error. -/
theorem solution_decode_failure_resilience_witness :
    ({ name := "royalty_transfer_layer", inner_puzzle_tree_hash := none,
       parse_error := none } : WrapperInfo) ∈
      (recognize_puzzle_and_solution id c10Catalog (Except.ok 0)
        (Except.error "oops")).wrappers ∧
    ({ name := "royalty_transfer_layer", inner_puzzle_tree_hash := none,
       parse_error := none } : WrapperInfo).parse_error = none :=
  ⟨by decide,
   (solution_decode_failure_resilience id c10Catalog 0 "oops").1 _
     (by decide)⟩
